import Mathlib

/-!
Shallow embedding of the Logistics AI chatbot (src/app.py): the fallback
knowledge base, the chat orchestrator, and the shipping facade (rate quotes
and tracking). Strings are modelled as lists of characters; the two HTTP
backends are modelled as function parameters, and each facade function also
returns the number of backend calls it performed. A Python exception that
the source does not catch (e.g. KeyError on a missing JSON field) is
modelled by `PyResult.exn`.
-/

namespace App

abbrev Str := List Char

def str (s : String) : Str := s.toList

/-- Models Python str.lower() on the ASCII range (the topic phrases are ASCII). -/
def lower (s : Str) : Str := s.map Char.toLower

def prefixMatch : Str → Str → Bool
  | [], _ => true
  | _ :: _, [] => false
  | a :: as, b :: bs => a = b && prefixMatch as bs

/-- Models the Python substring test `needle in haystack`. -/
def substrMatch (needle : Str) : Str → Bool
  | [] => prefixMatch needle []
  | b :: bs => prefixMatch needle (b :: bs) || substrMatch needle bs

/-- The ordered topic table of get_fallback_response (Python dicts preserve
insertion order, so iteration visits the pairs in this order). -/
def logistics_topics : List (Str × Str) := [
  (str "shipping rates", str "Shipping rates vary depending on factors such as package weight, dimensions, destination, and service level. For accurate rates, please use our Shipping Rates Calculator tool in the Tools section."),
  (str "track shipment", str "To track a shipment, you'll need the tracking number and carrier information. Please use our Shipment Tracker tool in the Tools section for real-time tracking updates."),
  (str "trucking", str "Trucking is a crucial part of logistics, involving the transportation of goods by road. It includes various types of services such as full truckload (FTL), less than truckload (LTL), and specialized freight."),
  (str "freight forwarding", str "Freight forwarding involves organizing shipments from the manufacturer or producer to the final point of distribution or consumer."),
  (str "customs", str "Customs procedures are essential for international shipping. They involve declaring goods, paying duties and taxes, and complying with import/export regulations."),
  (str "packaging", str "Proper packaging is crucial for protecting your items during shipping. Use appropriate materials like bubble wrap, packing peanuts, or air pillows."),
  (str "insurance", str "Shipping insurance provides protection against loss, damage, or theft of your packages."),
  (str "international shipping", str "International shipping involves additional considerations such as customs documentation, duties and taxes, restricted items, and longer transit times."),
  (str "warehousing", str "Warehousing is the storage of goods before they are shipped to customers."),
  (str "last-mile delivery", str "Last-mile delivery refers to the final step of the delivery process from a distribution center to the end customer.")]

def generic_prompt : Str :=
  str "I'm here to help with all your logistics needs, including shipping, trucking, and freight forwarding. Could you please provide more specific information about what you'd like to know? Feel free to ask about topics such as shipping rates, tracking, customs, packaging, insurance, or any other logistics-related questions."

/-- get_fallback_response: first topic whose phrase occurs in the lowercased
input wins; otherwise the generic prompt. -/
def get_fallback_response (user_input : Str) : Str :=
  match logistics_topics.find? (fun p => substrMatch p.1 (lower user_input)) with
  | some p => p.2
  | none => generic_prompt

/-- Modelled from the spec's matching rule for comparison with the source:
case-insensitive substring containment of each topic phrase (both sides
lowercased), tested in table order, first match wins. -/
def fallback_spec (user_input : Str) : Str :=
  match logistics_topics.find? (fun p => substrMatch (lower p.1) (lower user_input)) with
  | some p => p.2
  | none => generic_prompt

structure ChatMessage where
  role : Str
  content : Str
deriving DecidableEq

/-- The fixed system-role instruction message of get_enhanced_chatbot_response. -/
def system_message : ChatMessage :=
  ⟨str "system", str "You are an expert AI assistant specializing in logistics, shipping, trucking, and freight forwarding. Provide accurate, helpful, and concise information to user queries. Always maintain a friendly and professional tone."⟩

/-- The messages list built by get_enhanced_chatbot_response: the system
message, then chat_history[-5:] (modelled by dropping all but the last 5),
then the new user message. -/
def build_messages (user_input : Str) (chat_history : List ChatMessage) : List ChatMessage :=
  [system_message]
    ++ (chat_history.drop (chat_history.length - 5)).map (fun chat => ⟨chat.role, chat.content⟩)
    ++ [⟨str "user", user_input⟩]

/-- Python truthiness of an optional string (`if not KEY` is the negation):
an unset environment variable is none, an empty string is falsy. -/
def truthy : Option Str → Bool
  | none => false
  | some [] => false
  | some (_ :: _) => true

/-- Result of one uncaught Python evaluation: a value, or a propagating
exception that the source's except clause does not catch. -/
inductive PyResult (α : Type) where
  | ok (val : α)
  | exn
deriving DecidableEq

/-- Outcome of the requests.post call to the chat API together with the JSON
extraction response.json()["choices"][0]["message"]["content"]: `success` is
a 2xx response whose body parsed and held the content; `requestError` is any
requests.exceptions.RequestException (transport, timeout, raise_for_status on
a non-2xx, JSON decode failure); `otherError` is an exception of another
class (e.g. KeyError on a body without "choices"), which the except clause
does not catch. -/
inductive ChatCallResult where
  | success (content : Str)
  | requestError
  | otherError
deriving DecidableEq

/-- get_enhanced_chatbot_response, with the HTTP call abstracted as `backend`
applied to the messages payload. The second component counts backend calls. -/
def get_enhanced_chatbot_response (groq_api_key : Option Str)
    (backend : List ChatMessage → ChatCallResult)
    (user_input : Str) (chat_history : List ChatMessage) : PyResult Str × Nat :=
  if truthy groq_api_key = false then
    (PyResult.ok (get_fallback_response user_input), 0)
  else
    match backend (build_messages user_input chat_history) with
    | ChatCallResult.success c => (PyResult.ok c, 1)
    | ChatCallResult.requestError => (PyResult.ok (get_fallback_response user_input), 1)
    | ChatCallResult.otherError => (PyResult.exn, 1)

structure ShipmentAddress where
  name : Str
  street1 : Str
  city : Str
  state : Str
  zip : Str
  country : Str
deriving DecidableEq

/-- One entry of the "parcels" array; the source stringifies each dimension
with str(...), so the fields carry the decimal string forms. -/
structure Parcel where
  length : Str
  width : Str
  height : Str
  distance_unit : Str
  weight : Str
  mass_unit : Str
deriving DecidableEq

structure RatesPayload where
  address_from : ShipmentAddress
  address_to : ShipmentAddress
  parcels : List Parcel
  async : Bool
deriving DecidableEq

/-- The JSON payload get_shipping_rates posts to the shipments endpoint. -/
def rates_payload (origin destination : ShipmentAddress)
    (weight length width height : Str) : RatesPayload :=
  { address_from := origin
    address_to := destination
    parcels := [{ length := length, width := width, height := height,
                  distance_unit := str "in", weight := weight,
                  mass_unit := str "lb" }]
    async := false }

/-- One rate entry of the backend's "rates" array, as the spec's RateQuote
data model defines it. -/
structure Rate where
  provider : Str
  amount : Str
  duration_terms : Str
deriving DecidableEq

/-- The parsed JSON body of a successful rates response: `rates = none`
models a body without a "rates" key. -/
structure RatesResponse where
  rates : Option (List Rate)
deriving DecidableEq

/-- Outcome of the requests.post call to the shipments endpoint: a parsed
2xx body, or any requests.exceptions.RequestException. -/
inductive ShippoRatesResult where
  | success (data : RatesResponse)
  | requestError
deriving DecidableEq

/-- The f-string f"{provider} - ${amount} ({duration_terms})" of one rate. -/
def format_rate (r : Rate) : Str :=
  r.provider ++ str " - $" ++ r.amount ++ str " (" ++ r.duration_terms ++ str ")"

/-- Python "\n".join. -/
def joinNl : List Str → Str
  | [] => []
  | [s] => s
  | s :: t :: rest => s ++ '\n' :: joinNl (t :: rest)

def no_rates_msg : Str :=
  str "No rates found for the given shipment details. Please check your input and try again."

def rates_error_msg : Str :=
  str "An error occurred while fetching shipping rates. Please try again later or contact support."

def rates_header : Str := str "Available shipping rates:\n"

/-- get_shipping_rates, with the HTTP call abstracted as `backend` applied to
the posted payload. Note there is no missing-credential check: the key is
only interpolated into the Authorization header, which the backend parameter
abstracts. The second component counts backend calls. -/
def get_shipping_rates (shippo_api_key : Option Str)
    (backend : RatesPayload → ShippoRatesResult)
    (origin destination : ShipmentAddress)
    (weight length width height : Str) : Str × Nat :=
  match backend (rates_payload origin destination weight length width height) with
  | ShippoRatesResult.success data =>
    (match data.rates with
     | some (r :: rs) =>
         rates_header ++ joinNl (((r :: rs).take 5).map format_rate)
     | some [] => no_rates_msg
     | none => no_rates_msg,
     1)
  | ShippoRatesResult.requestError => (rates_error_msg, 1)

/-- The nested "location" object of a tracking response; a `none` field
models a missing key (dict access raises KeyError). -/
structure TrackingLocation where
  city : Option Str
  country : Option Str
deriving DecidableEq

structure TrackingStatusInfo where
  status : Option Str
  location : Option TrackingLocation
deriving DecidableEq

/-- The parsed JSON body of a successful tracking response. -/
structure TrackingInfo where
  tracking_status : Option TrackingStatusInfo
  eta : Option Str
deriving DecidableEq

/-- Outcome of the requests.get call to the tracks endpoint: a parsed 2xx
body, or any requests.exceptions.RequestException. -/
inductive ShippoTrackResult where
  | success (info : TrackingInfo)
  | requestError
deriving DecidableEq

def unavailable_msg : Str :=
  str "Shipment tracking is currently unavailable. Please try again later or contact support."

def track_error_msg : Str :=
  str "An error occurred while tracking the shipment. Please try again later or contact support."

/-- The field extraction of track_shipment. A missing key raises KeyError
(`PyResult.exn`), which the except clause for RequestException does not
catch; only the eta key is guarded with a conditional defaulting to
"Not available". -/
def extract_tracking (info : TrackingInfo) : PyResult Str :=
  match info.tracking_status with
  | none => PyResult.exn
  | some ts =>
    match ts.status with
    | none => PyResult.exn
    | some status =>
      match ts.location with
      | none => PyResult.exn
      | some loc =>
        match loc.city with
        | none => PyResult.exn
        | some city =>
          match loc.country with
          | none => PyResult.exn
          | some country =>
            PyResult.ok (str "Tracking Status: " ++ status
              ++ str "\nCurrent Location: " ++ city ++ str ", " ++ country
              ++ str "\nEstimated Delivery: " ++ info.eta.getD (str "Not available"))

/-- Whether a tracking body lacks one of the fields track_shipment reads
without a guard (everything but eta). -/
def missing_expected_field (info : TrackingInfo) : Bool :=
  match info.tracking_status with
  | none => true
  | some ts =>
    match ts.status with
    | none => true
    | some _ =>
      match ts.location with
      | none => true
      | some loc => loc.city.isNone || loc.country.isNone

/-- track_shipment, with the HTTP call abstracted as `backend` applied to the
carrier and tracking number that the URL is built from. The second component
counts backend calls. -/
def track_shipment (shippo_api_key : Option Str)
    (backend : Str → Str → ShippoTrackResult)
    (tracking_number carrier : Str) : PyResult Str × Nat :=
  if truthy shippo_api_key = false then
    (PyResult.ok unavailable_msg, 0)
  else
    match backend carrier tracking_number with
    | ShippoTrackResult.success info => (extract_tracking info, 1)
    | ShippoTrackResult.requestError => (PyResult.ok track_error_msg, 1)

/-- Split a text into its lines at newline characters (n newlines give n+1
lines), to state which line of a block carries which field. -/
def splitNl : Str → List Str
  | [] => [[]]
  | c :: cs =>
    let rest := splitNl cs
    if c = '\n' then [] :: rest
    else (c :: rest.headD []) :: rest.tail

/-- Fixture: a 7-message conversation history. -/
def hist7 : List ChatMessage :=
  [⟨str "user", str "m1"⟩, ⟨str "assistant", str "m2"⟩, ⟨str "user", str "m3"⟩,
   ⟨str "assistant", str "m4"⟩, ⟨str "user", str "m5"⟩, ⟨str "assistant", str "m6"⟩,
   ⟨str "user", str "m7"⟩]

/-- Fixture: seven rate entries, as in the spec's 7-entry test. -/
def sample_rates : List Rate :=
  [⟨str "UPS", str "12.50", str "2 days"⟩, ⟨str "FedEx", str "13.10", str "1 day"⟩,
   ⟨str "USPS", str "9.99", str "3 days"⟩, ⟨str "DHL", str "15.00", str "2 days"⟩,
   ⟨str "OnTrac", str "11.20", str "4 days"⟩, ⟨str "GSO", str "10.75", str "5 days"⟩,
   ⟨str "LaserShip", str "8.40", str "6 days"⟩]

/-- Fixture: a concrete address for the rate witnesses. -/
def sample_address : ShipmentAddress :=
  ⟨str "A", str "1 Main St", str "Springfield", str "IL", str "62701", str "US"⟩

theorem find?_congr_on {α : Type} (p q : α → Bool) :
    ∀ l : List α, (∀ a ∈ l, p a = q a) → l.find? p = l.find? q
  | [], _ => rfl
  | a :: t, h => by
    have ha : p a = q a := h a (List.mem_cons_self a t)
    cases hq : q a with
    | true =>
      rw [List.find?_cons_of_pos _ (ha.trans hq), List.find?_cons_of_pos _ hq]
    | false =>
      rw [List.find?_cons_of_neg, List.find?_cons_of_neg]
      · exact find?_congr_on p q t (fun x hx => h x (List.mem_cons_of_mem a hx))
      · simp [hq]
      · simp [ha, hq]

theorem topics_lower : ∀ p ∈ logistics_topics, lower p.1 = p.1 := by decide

/-- C1: for every userInput, get_fallback_response returns exactly the canned
response of the first topic phrase (in the table's defined order) contained
case-insensitively in the input, and the fixed generic prompt when no topic
phrase is contained: it agrees on every input with fallback_spec, the
matching rule written from the spec's words, and it is a pure function. -/
theorem fallback_matches_spec (user_input : Str) :
    get_fallback_response user_input = fallback_spec user_input := by
  unfold get_fallback_response fallback_spec
  rw [find?_congr_on (fun p => substrMatch p.1 (lower user_input))
      (fun p => substrMatch (lower p.1) (lower user_input)) logistics_topics
      (fun p hp => by
        show substrMatch p.1 (lower user_input)
          = substrMatch (lower p.1) (lower user_input)
        rw [topics_lower p hp])]

/-- C2: whenever the backend call fails with a RequestException (transport,
timeout, non-2xx, or JSON decode failure), get_enhanced_chatbot_response does
not raise and returns exactly get_fallback_response of the current input,
for every key, history and backend. -/
theorem chat_failure_falls_back (key : Option Str)
    (backend : List ChatMessage → ChatCallResult) (user_input : Str)
    (hist : List ChatMessage)
    (h : backend (build_messages user_input hist) = ChatCallResult.requestError) :
    (get_enhanced_chatbot_response key backend user_input hist).1
      = PyResult.ok (get_fallback_response user_input) := by
  unfold get_enhanced_chatbot_response
  cases ht : truthy key <;> simp [ht, h]

/-- Witness for C2: a backend that always fails with a RequestException. -/
theorem chat_failure_falls_back_witness :
    (get_enhanced_chatbot_response (some (str "key"))
        (fun _ => ChatCallResult.requestError) (str "hello") []).1
      = PyResult.ok (get_fallback_response (str "hello")) :=
  chat_failure_falls_back (some (str "key")) (fun _ => ChatCallResult.requestError)
    (str "hello") [] rfl

/-- C3: for every history of length at least 5, the messages payload built by
get_enhanced_chatbot_response has exactly 7 entries: the fixed system-role
instruction message, then the last 5 history messages verbatim (all earlier
entries excluded), then one user-role message holding the new input. -/
theorem chat_window_seven (user_input : Str) (hist : List ChatMessage)
    (h : 5 ≤ hist.length) :
    (build_messages user_input hist).length = 7 ∧
    ∃ earlier last5 : List ChatMessage,
      hist = earlier ++ last5 ∧ last5.length = 5 ∧
      build_messages user_input hist
        = system_message :: (last5 ++ [⟨str "user", user_input⟩]) := by
  have hmap : ∀ l : List ChatMessage,
      l.map (fun chat => ChatMessage.mk chat.role chat.content) = l := by
    intro l
    have : (fun chat : ChatMessage => ChatMessage.mk chat.role chat.content) = id := rfl
    rw [this, List.map_id]
  constructor
  · unfold build_messages
    rw [hmap]
    simp [List.length_append, List.length_drop]
    omega
  · refine ⟨hist.take (hist.length - 5), hist.drop (hist.length - 5),
      (List.take_append_drop _ _).symm, ?_, ?_⟩
    · rw [List.length_drop]; omega
    · unfold build_messages
      rw [hmap]
      rfl

/-- Witness for C3: a concrete 7-message history. -/
theorem chat_window_seven_witness :
    (build_messages (str "new question") hist7).length = 7 ∧
    ∃ earlier last5 : List ChatMessage,
      hist7 = earlier ++ last5 ∧ last5.length = 5 ∧
      build_messages (str "new question") hist7
        = system_message :: (last5 ++ [⟨str "user", str "new question"⟩]) :=
  chat_window_seven (str "new question") hist7 (by decide)

/-- C4: with no truthy chat credential configured,
get_enhanced_chatbot_response returns exactly the fallback text for the
current input and performs zero backend calls. -/
theorem chat_no_key_short_circuit (key : Option Str)
    (backend : List ChatMessage → ChatCallResult) (user_input : Str)
    (hist : List ChatMessage) (h : truthy key = false) :
    get_enhanced_chatbot_response key backend user_input hist
      = (PyResult.ok (get_fallback_response user_input), 0) := by
  unfold get_enhanced_chatbot_response
  simp [h]

/-- Witness for C4: the spec's own example input with no credential. -/
theorem chat_no_key_short_circuit_witness :
    get_enhanced_chatbot_response none (fun _ => ChatCallResult.otherError)
        (str "what are your rates?") []
      = (PyResult.ok (get_fallback_response (str "what are your rates?")), 0) :=
  chat_no_key_short_circuit none (fun _ => ChatCallResult.otherError)
    (str "what are your rates?") [] rfl

/-- C5: on a successful rates response whose "rates" array holds the entries
rs, get_shipping_rates returns the header line followed by the first
min(|rs|, 5) entries in backend order, each formatted
"<provider> - $<amount> (<duration_terms>)" and joined by newlines, and
returns the fixed no-rates message when rs is empty. -/
theorem rates_success_format (key : Option Str)
    (backend : RatesPayload → ShippoRatesResult)
    (origin destination : ShipmentAddress) (weight l w h : Str)
    (rs : List Rate)
    (hb : backend (rates_payload origin destination weight l w h)
            = ShippoRatesResult.success ⟨some rs⟩) :
    (rs ≠ [] →
      (get_shipping_rates key backend origin destination weight l w h).1
          = rates_header ++ joinNl ((rs.take 5).map format_rate)
        ∧ (rs.take 5).length = min rs.length 5)
    ∧ (rs = [] →
      (get_shipping_rates key backend origin destination weight l w h).1
          = no_rates_msg) := by
  constructor
  · intro hne
    cases rs with
    | nil => exact absurd rfl hne
    | cons r t =>
      refine ⟨by simp [get_shipping_rates, hb], ?_⟩
      rw [List.length_take, Nat.min_comm]
  · intro he
    subst he
    simp [get_shipping_rates, hb]

/-- Witness for C5: a backend returning seven rate entries. -/
theorem rates_success_format_witness :
    (sample_rates ≠ [] →
      (get_shipping_rates none (fun _ => ShippoRatesResult.success ⟨some sample_rates⟩)
          sample_address sample_address (str "1.0") (str "10.0") (str "10.0") (str "10.0")).1
          = rates_header ++ joinNl ((sample_rates.take 5).map format_rate)
        ∧ (sample_rates.take 5).length = min sample_rates.length 5)
    ∧ (sample_rates = [] →
      (get_shipping_rates none (fun _ => ShippoRatesResult.success ⟨some sample_rates⟩)
          sample_address sample_address (str "1.0") (str "10.0") (str "10.0") (str "10.0")).1
          = no_rates_msg) :=
  rates_success_format none (fun _ => ShippoRatesResult.success ⟨some sample_rates⟩)
    sample_address sample_address (str "1.0") (str "10.0") (str "10.0") (str "10.0")
    sample_rates rfl

/-- C8: get_shipping_rates has no missing-credential short-circuit: for every
key (configured or not) it performs exactly one backend call, its whole
result never depends on the key, and on a RequestException it returns the
single fixed generic error message, so a missing-credential failure is not
distinguishable from any other failure by the return value. -/
theorem rates_no_credential_gate (key : Option Str)
    (backend : RatesPayload → ShippoRatesResult)
    (origin destination : ShipmentAddress) (weight l w h : Str) :
    (get_shipping_rates key backend origin destination weight l w h).2 = 1
    ∧ (∀ key2 : Option Str,
        get_shipping_rates key backend origin destination weight l w h
          = get_shipping_rates key2 backend origin destination weight l w h)
    ∧ (backend (rates_payload origin destination weight l w h)
          = ShippoRatesResult.requestError →
        (get_shipping_rates key backend origin destination weight l w h).1
          = rates_error_msg) := by
  refine ⟨?_, fun key2 => rfl, fun hb => by simp [get_shipping_rates, hb]⟩
  unfold get_shipping_rates
  cases backend (rates_payload origin destination weight l w h) with
  | success data => rfl
  | requestError => rfl

/-- C10: a successful rates response whose body has no "rates" key at all is
folded into the zero-rates case: get_shipping_rates returns the fixed
no-rates message after its single call, instead of raising. -/
theorem rates_missing_key_as_empty (key : Option Str)
    (backend : RatesPayload → ShippoRatesResult)
    (origin destination : ShipmentAddress) (weight l w h : Str)
    (hb : backend (rates_payload origin destination weight l w h)
            = ShippoRatesResult.success ⟨none⟩) :
    get_shipping_rates key backend origin destination weight l w h
      = (no_rates_msg, 1) := by
  simp [get_shipping_rates, hb]

/-- Witness for C10: a backend whose successful body lacks the rates key. -/
theorem rates_missing_key_as_empty_witness :
    get_shipping_rates none (fun _ => ShippoRatesResult.success ⟨none⟩)
        sample_address sample_address (str "2.0") (str "5.0") (str "5.0") (str "5.0")
      = (no_rates_msg, 1) :=
  rates_missing_key_as_empty none (fun _ => ShippoRatesResult.success ⟨none⟩)
    sample_address sample_address (str "2.0") (str "5.0") (str "5.0") (str "5.0") rfl

/-- C7: with no truthy shipping credential configured, track_shipment returns
the fixed unavailable message and performs zero backend calls. -/
theorem track_no_credential (key : Option Str)
    (backend : Str → Str → ShippoTrackResult) (tracking_number carrier : Str)
    (h : truthy key = false) :
    track_shipment key backend tracking_number carrier
      = (PyResult.ok unavailable_msg, 0) := by
  simp [track_shipment, h]

/-- Witness for C7: no credential, concrete tracking query. -/
theorem track_no_credential_witness :
    track_shipment none (fun _ _ => ShippoTrackResult.requestError)
        (str "SHIPPO123") (str "usps")
      = (PyResult.ok unavailable_msg, 0) :=
  track_no_credential none (fun _ _ => ShippoTrackResult.requestError)
    (str "SHIPPO123") (str "usps") rfl

theorem extract_missing_exn (info : TrackingInfo)
    (hm : missing_expected_field info = true) :
    extract_tracking info = PyResult.exn := by
  obtain ⟨ts, eta⟩ := info
  cases ts with
  | none => rfl
  | some tsv =>
    obtain ⟨st, loc⟩ := tsv
    cases st with
    | none => rfl
    | some s =>
      cases loc with
      | none => rfl
      | some lv =>
        obtain ⟨ci, co⟩ := lv
        cases ci with
        | none => rfl
        | some c1 =>
          cases co with
          | none => rfl
          | some c2 => simp [missing_expected_field] at hm

/-- C6 counterexample: with a credential configured, a successful response
whose body lacks the tracking_status field does not yield the fixed generic
error message: the KeyError escapes the handler, which catches only
RequestException, and track_shipment ends in an uncaught exception. -/
theorem track_missing_field_not_generic :
    (track_shipment (some (str "token"))
        (fun _ _ => ShippoTrackResult.success ⟨none, none⟩)
        (str "SHIPPO123") (str "usps")).1 ≠ PyResult.ok track_error_msg
    ∧ (track_shipment (some (str "token"))
        (fun _ _ => ShippoTrackResult.success ⟨none, none⟩)
        (str "SHIPPO123") (str "usps")).1 = PyResult.exn := by
  constructor
  · decide
  · rfl

/-- C6 amended: with a credential configured, track_shipment returns the
fixed generic error message on any transport/HTTP failure, but on a
successful response from which an expected field is missing (tracking_status,
its status or location, or the location's city or country) the KeyError
propagates as an uncaught exception instead of the generic message. -/
theorem track_failure_modes (key : Option Str)
    (backend : Str → Str → ShippoTrackResult) (tracking_number carrier : Str)
    (hk : truthy key = true) :
    (backend carrier tracking_number = ShippoTrackResult.requestError →
      track_shipment key backend tracking_number carrier
        = (PyResult.ok track_error_msg, 1))
    ∧ (∀ info : TrackingInfo,
        backend carrier tracking_number = ShippoTrackResult.success info →
        missing_expected_field info = true →
        track_shipment key backend tracking_number carrier
          = (PyResult.exn, 1)) := by
  constructor
  · intro hb
    simp [track_shipment, hk, hb]
  · intro info hb hm
    simp [track_shipment, hk, hb, extract_missing_exn info hm]

/-- Witness for the amended C6: a backend that fails with a
RequestException. -/
theorem track_failure_modes_witness :
    ((fun (_ _ : Str) => ShippoTrackResult.requestError) (str "usps") (str "SHIPPO123")
        = ShippoTrackResult.requestError →
      track_shipment (some (str "token")) (fun _ _ => ShippoTrackResult.requestError)
          (str "SHIPPO123") (str "usps")
        = (PyResult.ok track_error_msg, 1))
    ∧ (∀ info : TrackingInfo,
        (fun (_ _ : Str) => ShippoTrackResult.requestError) (str "usps") (str "SHIPPO123")
          = ShippoTrackResult.success info →
        missing_expected_field info = true →
        track_shipment (some (str "token")) (fun _ _ => ShippoTrackResult.requestError)
            (str "SHIPPO123") (str "usps")
          = (PyResult.exn, 1)) :=
  track_failure_modes (some (str "token")) (fun _ _ => ShippoTrackResult.requestError)
    (str "SHIPPO123") (str "usps") (by decide)

theorem splitNl_append (a b : Str) (h : '\n' ∉ a) :
    splitNl (a ++ '\n' :: b) = a :: splitNl b := by
  induction a with
  | nil => simp [splitNl]
  | cons c cs ih =>
    have hc : ¬ c = '\n' := fun e => h (by simp [e])
    have h' : '\n' ∉ cs := fun m => h (List.mem_cons_of_mem c m)
    simp [splitNl, hc, ih h']

/-- C9: with a credential configured, on a successful response carrying the
status, city and country fields but no top-level eta field, track_shipment
returns a 3-line block whose first line carries the status, second line the
city and country, and third line reads exactly
"Estimated Delivery: Not available". -/
theorem track_no_eta_block (key : Option Str)
    (backend : Str → Str → ShippoTrackResult) (tracking_number carrier : Str)
    (status city country : Str)
    (hk : truthy key = true)
    (hb : backend carrier tracking_number
      = ShippoTrackResult.success
          ⟨some ⟨some status, some ⟨some city, some country⟩⟩, none⟩)
    (h1 : '\n' ∉ status) (h2 : '\n' ∉ city) (h3 : '\n' ∉ country) :
    ∃ out : Str,
      track_shipment key backend tracking_number carrier = (PyResult.ok out, 1)
      ∧ splitNl out = [str "Tracking Status: " ++ status,
                       str "Current Location: " ++ city ++ str ", " ++ country,
                       str "Estimated Delivery: Not available"] := by
  refine ⟨str "Tracking Status: " ++ status ++ str "\nCurrent Location: " ++ city
      ++ str ", " ++ country ++ str "\nEstimated Delivery: " ++ str "Not available",
      ?_, ?_⟩
  · simp [track_shipment, hk, hb, extract_tracking]
  · have e1 : str "\nCurrent Location: " = '\n' :: str "Current Location: " := rfl
    have e2 : str "\nEstimated Delivery: " = '\n' :: str "Estimated Delivery: " := rfl
    have hl1 : '\n' ∉ str "Tracking Status: " ++ status := by
      intro m
      rcases List.mem_append.mp m with hm | hm
      · exact absurd hm (by decide)
      · exact h1 hm
    have hl2 : '\n' ∉ str "Current Location: " ++ (city ++ (str ", " ++ country)) := by
      intro m
      rcases List.mem_append.mp m with hm | hm
      · exact absurd hm (by decide)
      rcases List.mem_append.mp hm with hm2 | hm2
      · exact h2 hm2
      rcases List.mem_append.mp hm2 with hm3 | hm3
      · exact absurd hm3 (by decide)
      · exact h3 hm3
    calc splitNl (str "Tracking Status: " ++ status ++ str "\nCurrent Location: "
            ++ city ++ str ", " ++ country ++ str "\nEstimated Delivery: "
            ++ str "Not available")
        = splitNl ((str "Tracking Status: " ++ status)
            ++ '\n' :: ((str "Current Location: " ++ (city ++ (str ", " ++ country)))
            ++ '\n' :: (str "Estimated Delivery: " ++ str "Not available"))) := by
          rw [e1, e2]
          simp [List.append_assoc]
      _ = (str "Tracking Status: " ++ status)
            :: splitNl ((str "Current Location: " ++ (city ++ (str ", " ++ country)))
            ++ '\n' :: (str "Estimated Delivery: " ++ str "Not available")) :=
          splitNl_append _ _ hl1
      _ = (str "Tracking Status: " ++ status)
            :: (str "Current Location: " ++ (city ++ (str ", " ++ country)))
            :: splitNl (str "Estimated Delivery: " ++ str "Not available") := by
          rw [splitNl_append _ _ hl2]
      _ = [str "Tracking Status: " ++ status,
           str "Current Location: " ++ city ++ str ", " ++ country,
           str "Estimated Delivery: Not available"] := by
          rw [show splitNl (str "Estimated Delivery: " ++ str "Not available")
              = [str "Estimated Delivery: Not available"] from by decide]
          simp [List.append_assoc]

/-- Witness for C9: a concrete in-transit response without an eta field. -/
theorem track_no_eta_block_witness :
    ∃ out : Str,
      track_shipment (some (str "token"))
          (fun _ _ => ShippoTrackResult.success
            ⟨some ⟨some (str "TRANSIT"), some ⟨some (str "Memphis"), some (str "US")⟩⟩,
             none⟩)
          (str "SHIPPO456") (str "fedex")
        = (PyResult.ok out, 1)
      ∧ splitNl out = [str "Tracking Status: " ++ str "TRANSIT",
                       str "Current Location: " ++ str "Memphis" ++ str ", " ++ str "US",
                       str "Estimated Delivery: Not available"] :=
  track_no_eta_block (some (str "token"))
    (fun _ _ => ShippoTrackResult.success
      ⟨some ⟨some (str "TRANSIT"), some ⟨some (str "Memphis"), some (str "US")⟩⟩, none⟩)
    (str "SHIPPO456") (str "fedex") (str "TRANSIT") (str "Memphis") (str "US")
    (by decide) rfl (by decide) (by decide) (by decide)

end App
